import Mathlib

/-!
# Verification of the OverviewReport refresh controller

Shallow embedding of `src/webapp/src/reports/OverviewReport.tsx`: the
refresh controller that issues one `groupBy` discovery call, then one
`histogramTime` call per discovered event type, merges the responses into
a chart model, and maintains a pending-request counter (`loading`).

Modelling conventions:

* The chart.js object's mutable data (`histogram.data.labels`,
  `histogram.data.datasets`) together with the closure-local `labels`
  array, the `loading` signal, the `hiddenTypes` map, the console log and
  the lists of issued network requests form one explicit `Panel` state.
  After the first assignment `histogram.data.labels = labels` the closure
  array and the chart's label array alias each other, and before it both
  are empty, so a single `labels` field models both.
* The external datetime helpers (`getInterval ∘ parse_timerange`) are an
  opaque collaborator; they are passed in as a function parameter `getIv`.
* Network non-determinism is explicit: a refresh cycle is parameterised by
  the discovery outcome and by the list of histogram settlements in their
  arrival order (`none` = rejected promise, `some data` = fulfilled).
  `TIME_RANGE()` is an ambient signal read twice: `tr0` is its value when
  `refresh()` runs, `tr1` its value when the discovery response arrives.
* For the counter claims that range over arbitrary interleavings of
  several cycles, a separate small transition system (`SysState`/`step`)
  models only the `setLoading` increments and decrements, guarded so that
  a settlement event can only fire for an outstanding call.
-/

namespace Overview

/-- One point of a `histogramTime` response: `{time, count}`. -/
structure HistPoint where
  time : Nat
  count : Nat
  deriving Repr, DecidableEq

/-- One row of a `groupBy` discovery response: `{key, count}`. -/
structure Row where
  key : String
  count : Nat
  deriving Repr, DecidableEq

/-- A chart.js dataset as pushed by the merge code:
`{data: values, label: e.key, pointRadius: 0, hidden: hidden}`.
The `hidden` field models the dataset's effective visibility (chart.js
treats a missing/`undefined` `hidden` as visible, modelled as `false`). -/
structure Dataset where
  data : List Nat
  label : String
  pointRadius : Nat
  hidden : Bool
  deriving Repr, DecidableEq

/-- The request record of `API.histogramTime`. -/
structure HistogramRequest where
  time_range : String
  interval : String
  event_type : String
  query_string : String
  deriving Repr, DecidableEq

/-- The request record of `API.groupBy`. -/
structure GroupByRequest where
  field : String
  size : Nat
  time_range : String
  deriving Repr, DecidableEq

/-- The observable state of the `OverviewReport` component: the `loading`
signal, the chart model (`labels`, `datasets`), the `hiddenTypes`
visibility registry, the console diagnostics, and the network requests
issued so far. -/
structure Panel where
  loading : Int
  labels : List Nat
  datasets : List Dataset
  hiddenTypes : List (String × Bool)
  log : List String
  issuedGroupBy : List GroupByRequest
  issuedHistogram : List HistogramRequest
  deriving Repr, DecidableEq

/-- The initial `hiddenTypes` registry literal (source lines 18-22):
`{anomaly: true, stats: true, netflow: true}`. -/
def hiddenTypes0 : List (String × Bool) :=
  [("anomaly", true), ("stats", true), ("netflow", true)]

/-- The component's state right after creation: `loading` 0, no chart
data, the built-in hidden set, nothing logged or issued. -/
def initPanel : Panel :=
  { loading := 0, labels := [], datasets := [], hiddenTypes := hiddenTypes0,
    log := [], issuedGroupBy := [], issuedHistogram := [] }

/-- JS map read `hiddenTypes[eventType]` used in a boolean position:
a missing key yields `undefined`, which chart.js renders as visible, so
the default is `false`. -/
def lookupHidden (m : List (String × Bool)) (k : String) : Bool :=
  match m.lookup k with
  | some b => b
  | none => false

/-- JS map write `hiddenTypes[k] = b`: overwrite the entry if the key is
present, otherwise add it. -/
def setAssoc (m : List (String × Bool)) (k : String) (b : Bool) :
    List (String × Bool) :=
  match m with
  | [] => [(k, b)]
  | (k', b') :: rest =>
      if k' = k then (k, b) :: rest else (k', b') :: setAssoc rest k b

/-- The callback passed to `untrack` at the top of `refresh()` (source
lines 36-40).  Its `return` statement exits only this arrow function; the
callback produces no value that `refresh` inspects, so the peek has no
effect on the rest of `refresh`. -/
def refreshUntrackCheck (loading : Int) : Unit :=
  if loading > 0 then () else ()

/-- The synchronous part of `refresh()` (source lines 35-49): the
`untrack` peek, `setLoading (n+1)`, `initChart`/`buildChart` (a fresh
chart with empty `labels` and `datasets`; `hiddenTypes` is untouched),
reading `TIME_RANGE()` into the local `timeRange` (`tr0`), and issuing
`API.groupBy {field: "event_type", size: 100, time_range: timeRange}`. -/
def refreshStart (tr0 : String) (st : Panel) : Panel :=
  let _peek := refreshUntrackCheck st.loading
  { st with
    loading := st.loading + 1,
    labels := [],
    datasets := [],
    issuedGroupBy := st.issuedGroupBy ++ [⟨"event_type", 100, tr0⟩] }

/-- The `.then` callback on a `groupBy` success (source lines 50-62,
without the inner histogram handlers): for each row, in response order,
`setLoading (n+1)` and issue
`API.histogramTime {time_range: TIME_RANGE(), interval, event_type: e.key,
query_string: ""}`.  Note that `time_range` re-reads the ambient signal
(`tr1`), while `interval` is the value captured at the start of the
cycle. -/
def discoveryThen (tr1 interval : String) (rows : List Row) (st : Panel) :
    Panel :=
  rows.foldl
    (fun s e =>
      { s with
        loading := s.loading + 1,
        issuedHistogram := s.issuedHistogram ++ [⟨tr1, interval, e.key, ""⟩] })
    st

/-- The `.finally` on the discovery promise (source lines 90-92):
`setLoading (n-1)`. -/
def discoveryFinally (st : Panel) : Panel :=
  { st with loading := st.loading - 1 }

/-- The `.then` callback on a `histogramTime` success (source lines
63-84): if `labels` is still empty, populate it from `data[].time` and
assign it to the chart; then either log a mismatch or push a new dataset
`{data: counts, label: e.key, pointRadius: 0, hidden: hiddenTypes[key]}`. -/
def histogramThen (eventType : String) (data : List HistPoint)
    (st : Panel) : Panel :=
  let labels := if st.labels.length = 0 then data.map (·.time) else st.labels
  if data.length ≠ labels.length then
    { st with
      labels := labels,
      log := st.log ++ ["ERROR: Label and data mismatch"] }
  else
    { st with
      labels := labels,
      datasets := st.datasets ++
        [⟨data.map (·.count), eventType, 0, lookupHidden st.hiddenTypes eventType⟩] }

/-- One settled histogram call (source lines 63-87): run the `.then`
merge if the promise was fulfilled, then the `.finally` decrement either
way.  `arrival = (eventType, none)` is a rejected promise (it has no
`.catch`, so nothing is logged), `(eventType, some data)` a fulfilled
one. -/
def histogramSettle (st : Panel) (arrival : String × Option (List HistPoint)) :
    Panel :=
  let st' :=
    match arrival.2 with
    | some data => histogramThen arrival.1 data st
    | none => st
  { st' with loading := st'.loading - 1 }

/-- Fold the histogram settlements, in their network arrival order, over
the panel state. -/
def runArrivals (arrivals : List (String × Option (List HistPoint)))
    (st : Panel) : Panel :=
  arrivals.foldl histogramSettle st

/-- One whole refresh cycle.  `getIv` is the external
`getInterval ∘ parse_timerange`; `tr0` and `tr1` are the values of the
ambient `TIME_RANGE()` signal at refresh start and at discovery-response
time; `disc` is the discovery outcome (`none` = rejected); `arrivals` are
the histogram settlements in arrival order (empty when discovery fails,
since then no histogram call exists to settle). -/
def runCycle (getIv : String → String) (tr0 tr1 : String)
    (disc : Option (List Row))
    (arrivals : List (String × Option (List HistPoint)))
    (st : Panel) : Panel :=
  let st1 := refreshStart tr0 st
  match disc with
  | none => runArrivals arrivals (discoveryFinally st1)
  | some rows =>
      runArrivals arrivals
        (discoveryFinally (discoveryThen tr1 (getIv tr0) rows st1))

/-- The legend `onClick` handler (source lines 117-130): for the clicked
`legendItem` with dataset index `i` and text equal to that dataset's
label, toggle the dataset's visibility on the chart and record the new
hidden state in `hiddenTypes`. -/
def legendClick (st : Panel) (i : Nat) : Panel :=
  match st.datasets.get? i with
  | none => st
  | some ds =>
      if !ds.hidden then
        { st with
          datasets := st.datasets.set i { ds with hidden := true },
          hiddenTypes := setAssoc st.hiddenTypes ds.label true }
      else
        { st with
          datasets := st.datasets.set i { ds with hidden := false },
          hiddenTypes := setAssoc st.hiddenTypes ds.label false }

/-- The first fulfilled histogram settlement of a cycle, in arrival
order; rejected settlements never merge anything, so this is exactly the
response that is merged first. -/
def firstSuccess :
    List (String × Option (List HistPoint)) → Option (String × List HistPoint)
  | [] => none
  | (k, some d) :: _ => some (k, d)
  | (_, none) :: rest => firstSuccess rest

/-- Number of histogram calls issued for a discovery outcome. -/
def numIssued : Option (List Row) → Nat
  | none => 0
  | some rows => rows.length

/-! ## Counter transition system

For the claims that quantify over arbitrary interleavings of `refresh()`
calls and settlements (possibly across overlapping cycles), only the
`setLoading` traffic matters.  `SysState` tracks the counter together
with the number of outstanding calls of each kind; an event for a call
that is not outstanding is invalid (`step` returns `none`), which encodes
that every decrement belongs to a call whose increment happened at its
issuance. -/

/-- Counter state: the `loading` signal plus the number of outstanding
(issued, unsettled) discovery and histogram calls. -/
structure SysState where
  loading : Int
  pendingGroupBy : Nat
  pendingHistogram : Nat
  deriving Repr, DecidableEq

/-- An externally scheduled event: a `refresh()` invocation, a discovery
settlement (`some n` = success discovering `n` event types, `none` =
failure), or a histogram settlement (its outcome does not touch the
counter). -/
inductive Event where
  | refresh : Event
  | groupBySettle : Option Nat → Event
  | histogramDone : Event
  deriving Repr, DecidableEq

/-- One step of the counter system, following the source's `setLoading`
calls: `refresh` increments and issues a discovery call (the `untrack`
peek does not stop it); a discovery success increments once per row while
issuing the histogram calls and then decrements in its `.finally`; every
histogram settlement decrements in its `.finally`. -/
def step (st : SysState) : Event → Option SysState
  | .refresh =>
      some ⟨st.loading + 1, st.pendingGroupBy + 1, st.pendingHistogram⟩
  | .groupBySettle out =>
      if st.pendingGroupBy = 0 then none
      else
        match out with
        | some n =>
            some ⟨st.loading + n - 1, st.pendingGroupBy - 1,
                  st.pendingHistogram + n⟩
        | none =>
            some ⟨st.loading - 1, st.pendingGroupBy - 1, st.pendingHistogram⟩
  | .histogramDone =>
      if st.pendingHistogram = 0 then none
      else some ⟨st.loading - 1, st.pendingGroupBy, st.pendingHistogram - 1⟩

/-- Run a list of events from a state; `none` if the trace is invalid
(an event settles a call that was never issued). -/
def runEvents (st : SysState) : List Event → Option SysState
  | [] => some st
  | ev :: rest =>
      match step st ev with
      | none => none
      | some st' => runEvents st' rest

/-- The counter state when the component mounts. -/
def initSys : SysState := ⟨0, 0, 0⟩

/-! ## Helper lemmas -/

theorem histogramThen_loading (k : String) (d : List HistPoint) (st : Panel) :
    (histogramThen k d st).loading = st.loading := by
  simp only [histogramThen]
  split <;> split <;> rfl

theorem histogramThen_hiddenTypes (k : String) (d : List HistPoint) (st : Panel) :
    (histogramThen k d st).hiddenTypes = st.hiddenTypes := by
  simp only [histogramThen]
  split <;> split <;> rfl

theorem histogramThen_issuedGroupBy (k : String) (d : List HistPoint) (st : Panel) :
    (histogramThen k d st).issuedGroupBy = st.issuedGroupBy := by
  simp only [histogramThen]
  split <;> split <;> rfl

theorem histogramThen_issuedHistogram (k : String) (d : List HistPoint) (st : Panel) :
    (histogramThen k d st).issuedHistogram = st.issuedHistogram := by
  simp only [histogramThen]
  split <;> split <;> rfl

theorem histogramThen_labels_of_ne_nil (k : String) (d : List HistPoint)
    (st : Panel) (h : st.labels ≠ []) :
    (histogramThen k d st).labels = st.labels := by
  have hlen : ¬st.labels.length = 0 := by
    simpa [List.length_eq_zero] using h
  simp only [histogramThen, if_neg hlen]
  split <;> rfl

theorem histogramSettle_loading (st : Panel)
    (a : String × Option (List HistPoint)) :
    (histogramSettle st a).loading = st.loading - 1 := by
  obtain ⟨k, od⟩ := a
  cases od with
  | none => rfl
  | some d => simp [histogramSettle, histogramThen_loading]

theorem histogramSettle_hiddenTypes (st : Panel)
    (a : String × Option (List HistPoint)) :
    (histogramSettle st a).hiddenTypes = st.hiddenTypes := by
  obtain ⟨k, od⟩ := a
  cases od with
  | none => rfl
  | some d => simp [histogramSettle, histogramThen_hiddenTypes]

theorem histogramSettle_issuedGroupBy (st : Panel)
    (a : String × Option (List HistPoint)) :
    (histogramSettle st a).issuedGroupBy = st.issuedGroupBy := by
  obtain ⟨k, od⟩ := a
  cases od with
  | none => rfl
  | some d => simp [histogramSettle, histogramThen_issuedGroupBy]

theorem histogramSettle_issuedHistogram (st : Panel)
    (a : String × Option (List HistPoint)) :
    (histogramSettle st a).issuedHistogram = st.issuedHistogram := by
  obtain ⟨k, od⟩ := a
  cases od with
  | none => rfl
  | some d => simp [histogramSettle, histogramThen_issuedHistogram]

theorem histogramSettle_labels_of_ne_nil (st : Panel)
    (a : String × Option (List HistPoint)) (h : st.labels ≠ []) :
    (histogramSettle st a).labels = st.labels := by
  obtain ⟨k, od⟩ := a
  cases od with
  | none => rfl
  | some d => simp [histogramSettle, histogramThen_labels_of_ne_nil k d st h]

theorem runArrivals_loading (arrivals : List (String × Option (List HistPoint)))
    (st : Panel) :
    (runArrivals arrivals st).loading = st.loading - arrivals.length := by
  induction arrivals generalizing st with
  | nil => simp [runArrivals]
  | cons a rest ih =>
      show (runArrivals rest (histogramSettle st a)).loading = _
      rw [ih, histogramSettle_loading]
      simp only [List.length_cons]
      push_cast
      ring

theorem runArrivals_hiddenTypes
    (arrivals : List (String × Option (List HistPoint))) (st : Panel) :
    (runArrivals arrivals st).hiddenTypes = st.hiddenTypes := by
  induction arrivals generalizing st with
  | nil => rfl
  | cons a rest ih =>
      show (runArrivals rest (histogramSettle st a)).hiddenTypes = _
      rw [ih, histogramSettle_hiddenTypes]

theorem runArrivals_issuedGroupBy
    (arrivals : List (String × Option (List HistPoint))) (st : Panel) :
    (runArrivals arrivals st).issuedGroupBy = st.issuedGroupBy := by
  induction arrivals generalizing st with
  | nil => rfl
  | cons a rest ih =>
      show (runArrivals rest (histogramSettle st a)).issuedGroupBy = _
      rw [ih, histogramSettle_issuedGroupBy]

theorem runArrivals_issuedHistogram
    (arrivals : List (String × Option (List HistPoint))) (st : Panel) :
    (runArrivals arrivals st).issuedHistogram = st.issuedHistogram := by
  induction arrivals generalizing st with
  | nil => rfl
  | cons a rest ih =>
      show (runArrivals rest (histogramSettle st a)).issuedHistogram = _
      rw [ih, histogramSettle_issuedHistogram]

theorem runArrivals_labels_of_ne_nil
    (arrivals : List (String × Option (List HistPoint))) (st : Panel)
    (h : st.labels ≠ []) :
    (runArrivals arrivals st).labels = st.labels := by
  induction arrivals generalizing st with
  | nil => rfl
  | cons a rest ih =>
      show (runArrivals rest (histogramSettle st a)).labels = _
      rw [ih _ (by rw [histogramSettle_labels_of_ne_nil st a h]; exact h),
        histogramSettle_labels_of_ne_nil st a h]

theorem discoveryThen_eq (tr1 interval : String) (rows : List Row) (st : Panel) :
    discoveryThen tr1 interval rows st =
      { st with
        loading := st.loading + rows.length,
        issuedHistogram := st.issuedHistogram ++
          rows.map (fun e => ⟨tr1, interval, e.key, ""⟩) } := by
  induction rows generalizing st with
  | nil => simp [discoveryThen]
  | cons e rest ih =>
      show discoveryThen tr1 interval rest _ = _
      rw [ih]
      congr 1
      · simp only [List.length_cons]
        push_cast
        ring
      · simp

theorem lookupHidden_setAssoc_self (m : List (String × Bool)) (k : String)
    (b : Bool) :
    lookupHidden (setAssoc m k b) k = b := by
  induction m with
  | nil => simp [setAssoc, lookupHidden, List.lookup]
  | cons e rest ih =>
      obtain ⟨k1, b1⟩ := e
      by_cases hk : k1 = k
      · subst hk
        simp [setAssoc, lookupHidden, List.lookup]
      · have hbeq : (k == k1) = false :=
          beq_eq_false_iff_ne.mpr (fun hh => hk hh.symm)
        simpa [setAssoc, hk, lookupHidden, List.lookup, hbeq] using ih

theorem lookupHidden_setAssoc_ne (m : List (String × Bool)) (k k' : String)
    (b : Bool) (h : k' ≠ k) :
    lookupHidden (setAssoc m k b) k' = lookupHidden m k' := by
  have hbk : (k' == k) = false := beq_eq_false_iff_ne.mpr h
  induction m with
  | nil => simp [setAssoc, lookupHidden, List.lookup, hbk]
  | cons e rest ih =>
      obtain ⟨k1, b1⟩ := e
      by_cases hk : k1 = k
      · subst hk
        simp [setAssoc, lookupHidden, List.lookup, hbk]
      · cases hbeq : k' == k1 with
        | true => simp [setAssoc, hk, lookupHidden, List.lookup, hbeq]
        | false => simpa [setAssoc, hk, lookupHidden, List.lookup, hbeq] using ih

theorem legendClick_eq (st : Panel) (i : Nat) (ds : Dataset)
    (h : st.datasets.get? i = some ds) :
    legendClick st i =
      { st with
        datasets := st.datasets.set i { ds with hidden := !ds.hidden },
        hiddenTypes := setAssoc st.hiddenTypes ds.label (!ds.hidden) } := by
  unfold legendClick
  rw [h]
  cases hd : ds.hidden <;> simp [hd]

/-- Before the first fulfilled settlement, a run of rejected settlements
changes neither `labels` nor `datasets`. -/
theorem histogramSettle_none_labels_datasets (st : Panel) (k : String) :
    (histogramSettle st (k, none)).labels = st.labels ∧
      (histogramSettle st (k, none)).datasets = st.datasets := by
  exact ⟨rfl, rfl⟩

/-- A fulfilled settlement arriving while `labels` is still empty sets
`labels` to the response's times and appends the response's series. -/
theorem histogramSettle_some_of_labels_nil (st : Panel) (k : String)
    (d : List HistPoint) (h : st.labels = []) :
    (histogramSettle st (k, some d)).labels = d.map (·.time) ∧
      (histogramSettle st (k, some d)).datasets = st.datasets ++
        [⟨d.map (·.count), k, 0, lookupHidden st.hiddenTypes k⟩] := by
  simp [histogramSettle, histogramThen, h]

/-- The labels established by whichever response is merged first survive
to the end of the cycle: the `runArrivals` fold never overwrites a
nonempty `labels`. -/
theorem runArrivals_labels_of_firstSuccess
    (arrivals : List (String × Option (List HistPoint))) (k : String)
    (d : List HistPoint) (st : Panel)
    (h0 : st.labels = []) (hfs : firstSuccess arrivals = some (k, d))
    (hd : d ≠ []) :
    (runArrivals arrivals st).labels = d.map (·.time) := by
  induction arrivals generalizing st with
  | nil => simp [firstSuccess] at hfs
  | cons a rest ih =>
      obtain ⟨k1, od⟩ := a
      cases od with
      | none =>
          have hfs' : firstSuccess rest = some (k, d) := hfs
          exact ih (histogramSettle st (k1, none)) h0 hfs'
      | some d1 =>
          have hk : k1 = k ∧ d1 = d := by
            simpa [firstSuccess, Prod.ext_iff] using hfs
          obtain ⟨rfl, rfl⟩ := hk
          have hset := histogramSettle_some_of_labels_nil st k1 d1 h0
          show (runArrivals rest (histogramSettle st (k1, some d1))).labels = _
          rw [runArrivals_labels_of_ne_nil rest _ (by
            rw [hset.1]
            simpa using hd), hset.1]

/-- With nonempty labels, a merge either leaves the datasets alone (the
mismatch branch) or appends the response's series, whose length matches
the labels. -/
theorem histogramThen_datasets_cases (k : String) (d : List HistPoint)
    (st : Panel) (hl : st.labels ≠ []) :
    (histogramThen k d st).datasets = st.datasets ∨
      (d.length = st.labels.length ∧
        (histogramThen k d st).datasets = st.datasets ++
          [⟨d.map (·.count), k, 0, lookupHidden st.hiddenTypes k⟩]) := by
  have hlen0 : ¬st.labels.length = 0 := by
    simpa [List.length_eq_zero] using hl
  by_cases hd : d.length = st.labels.length
  · exact Or.inr ⟨hd, by simp [histogramThen, hlen0, hd]⟩
  · exact Or.inl (by simp [histogramThen, hlen0, hd])

/-- A response whose length disagrees with the established labels is
dropped: the datasets are unchanged and a diagnostic line is logged. -/
theorem histogramSettle_skip_of_mismatch (st : Panel) (k : String)
    (d : List HistPoint) (hl : st.labels ≠ [])
    (hmm : d.length ≠ st.labels.length) :
    (histogramSettle st (k, some d)).datasets = st.datasets ∧
      (histogramSettle st (k, some d)).log =
        st.log ++ ["ERROR: Label and data mismatch"] := by
  have hlen0 : ¬st.labels.length = 0 := by
    simpa [List.length_eq_zero] using hl
  constructor <;> simp [histogramSettle, histogramThen, hlen0, hmm]

/-- Once the labels are nonempty and all present series match their
length, the same holds after any sequence of further settlements. -/
theorem runArrivals_len_invariant
    (arrivals : List (String × Option (List HistPoint))) (st : Panel)
    (hl : st.labels ≠ [])
    (hds : ∀ ds ∈ st.datasets, ds.data.length = st.labels.length) :
    ∀ ds ∈ (runArrivals arrivals st).datasets,
      ds.data.length = (runArrivals arrivals st).labels.length := by
  induction arrivals generalizing st with
  | nil => simpa [runArrivals] using hds
  | cons a rest ih =>
      show ∀ ds ∈ (runArrivals rest (histogramSettle st a)).datasets, _
      have hl' : (histogramSettle st a).labels ≠ [] := by
        rw [histogramSettle_labels_of_ne_nil st a hl]
        exact hl
      apply ih _ hl'
      rw [histogramSettle_labels_of_ne_nil st a hl]
      obtain ⟨k, od⟩ := a
      cases od with
      | none => simpa [histogramSettle] using hds
      | some d =>
          rcases histogramThen_datasets_cases k d st hl with hsame | ⟨hlen, happ⟩
          · intro ds hmem
            have : ds ∈ st.datasets := by
              simpa [histogramSettle, hsame] using hmem
            exact hds ds this
          · intro ds hmem
            have hmem' : ds ∈ st.datasets ++
                [⟨d.map (·.count), k, 0, lookupHidden st.hiddenTypes k⟩] := by
              simpa [histogramSettle, happ] using hmem
            rcases List.mem_append.mp hmem' with h1 | h2
            · exact hds ds h1
            · simp only [List.mem_singleton] at h2
              subst h2
              simp [hlen]

/-- From an empty chart, if the first fulfilled response is nonempty then
every series in the final model matches the label count. -/
theorem runArrivals_len_of_firstSuccess
    (arrivals : List (String × Option (List HistPoint))) (k : String)
    (d : List HistPoint) (st : Panel)
    (h0l : st.labels = []) (h0d : st.datasets = [])
    (hfs : firstSuccess arrivals = some (k, d)) (hd : d ≠ []) :
    ∀ ds ∈ (runArrivals arrivals st).datasets,
      ds.data.length = (runArrivals arrivals st).labels.length := by
  induction arrivals generalizing st with
  | nil => simp [firstSuccess] at hfs
  | cons a rest ih =>
      obtain ⟨k1, od⟩ := a
      cases od with
      | none =>
          exact ih (histogramSettle st (k1, none)) h0l h0d hfs
      | some d1 =>
          have hk : k1 = k ∧ d1 = d := by
            simpa [firstSuccess, Prod.ext_iff] using hfs
          obtain ⟨rfl, rfl⟩ := hk
          have hset := histogramSettle_some_of_labels_nil st k1 d1 h0l
          show ∀ ds ∈ (runArrivals rest (histogramSettle st (k1, some d1))).datasets, _
          apply runArrivals_len_invariant
          · rw [hset.1]
            simpa using hd
          · rw [hset.1, hset.2, h0d]
            intro ds hmem
            simp only [List.nil_append, List.mem_singleton] at hmem
            subst hmem
            simp

/-- No part of a refresh cycle writes to the `hiddenTypes` registry. -/
theorem runCycle_hiddenTypes (getIv : String → String) (tr0 tr1 : String)
    (disc : Option (List Row))
    (arrivals : List (String × Option (List HistPoint))) (st : Panel) :
    (runCycle getIv tr0 tr1 disc arrivals st).hiddenTypes = st.hiddenTypes := by
  cases disc with
  | none =>
      show (runArrivals arrivals _).hiddenTypes = _
      rw [runArrivals_hiddenTypes]
      rfl
  | some rows =>
      show (runArrivals arrivals _).hiddenTypes = _
      rw [runArrivals_hiddenTypes, discoveryThen_eq]
      rfl

/-- A cycle whose only settlement is one fulfilled response for key `k`
ends with exactly that series, its visibility read from the registry the
cycle started with. -/
theorem runCycle_single_arrival_datasets (getIv : String → String)
    (tr0 tr1 : String) (rows : List Row) (k : String) (d : List HistPoint)
    (st : Panel) :
    (runCycle getIv tr0 tr1 (some rows) [(k, some d)] st).datasets =
      [⟨d.map (·.count), k, 0, lookupHidden st.hiddenTypes k⟩] := by
  show (runArrivals [(k, some d)]
      (discoveryFinally (discoveryThen tr1 (getIv tr0) rows (refreshStart tr0 st)))).datasets = _
  rw [discoveryThen_eq]
  simp [runArrivals, histogramSettle, histogramThen, discoveryFinally,
    refreshStart, List.length_map]

/-! ## Claim theorems -/

/-- C1: the claim states that a `refresh()` call made while `loading > 0`
is a no-op (no chart rebuild, no counter increment, no network call).
The code violates this: the `return` inside the `untrack` callback exits
only that arrow function, so `refresh` continues unconditionally.
Evaluated at a state with `loading = 1` and a populated chart, `refresh`
increments the counter to 2, wipes the chart and issues a new discovery
call. -/
theorem refresh_reentrant_is_not_noop :
    refreshStart "24h"
        { initPanel with
          loading := 1, labels := [7], datasets := [⟨[1], "dns", 0, false⟩] } =
      { initPanel with
        loading := 2, labels := [], datasets := [],
        issuedGroupBy := [⟨"event_type", 100, "24h"⟩] } := by
  decide

/-- C2 counterexample: the first response merged in this cycle is
category "a" with an empty data array (it is inserted as a series, hence
merged), yet the final label sequence is `[100]`, taken from the second
response — not the first merged response's (empty) time sequence, and the
labels are established twice. -/
theorem labels_not_from_first_merged_cex :
    firstSuccess [("a", some []), ("b", some [⟨100, 5⟩])] = some ("a", []) ∧
    (runCycle id "tr" "tr" (some [⟨"a", 1⟩, ⟨"b", 1⟩])
        [("a", some []), ("b", some [⟨100, 5⟩])] initPanel).datasets.map
        Dataset.label = ["a", "b"] ∧
    (runCycle id "tr" "tr" (some [⟨"a", 1⟩, ⟨"b", 1⟩])
        [("a", some []), ("b", some [⟨100, 5⟩])] initPanel).labels = [100] ∧
    (([] : List HistPoint).map HistPoint.time : List Nat) ≠ [100] := by
  decide

/-- C2 (amended): for every refresh cycle whose first fulfilled histogram
response carries at least one data point, the final chart labels equal
that response's `data[].time` sequence, regardless of the arrival order
of the other responses; the labels, once set, are never overwritten. -/
theorem labels_eq_first_success_times (getIv : String → String)
    (tr0 tr1 : String) (rows : List Row)
    (arrivals : List (String × Option (List HistPoint))) (st : Panel)
    (k : String) (d : List HistPoint)
    (hfs : firstSuccess arrivals = some (k, d)) (hd : d ≠ []) :
    (runCycle getIv tr0 tr1 (some rows) arrivals st).labels =
      d.map (·.time) := by
  show (runArrivals arrivals
      (discoveryFinally
        (discoveryThen tr1 (getIv tr0) rows (refreshStart tr0 st)))).labels = _
  apply runArrivals_labels_of_firstSuccess arrivals k d _ _ hfs hd
  rw [discoveryThen_eq]
  rfl

/-- C2 witness: the scenario of spec §8.6 — "dns" arrives first and fixes
the labels `[100, 200]` even though "alert" was discovered first. -/
theorem labels_eq_first_success_times_witness :
    firstSuccess [("dns", some [⟨100, 1⟩, ⟨200, 2⟩]),
        ("alert", some [⟨100, 5⟩, ⟨200, 7⟩])] =
      some ("dns", [⟨100, 1⟩, ⟨200, 2⟩]) ∧
    ([⟨100, 1⟩, ⟨200, 2⟩] : List HistPoint) ≠ [] ∧
    (runCycle id "24h" "24h" (some [⟨"alert", 50⟩, ⟨"dns", 10⟩])
        [("dns", some [⟨100, 1⟩, ⟨200, 2⟩]), ("alert", some [⟨100, 5⟩, ⟨200, 7⟩])]
        initPanel).labels =
      ([⟨100, 1⟩, ⟨200, 2⟩] : List HistPoint).map (·.time) :=
  ⟨by decide, by decide,
    labels_eq_first_success_times id "24h" "24h" [⟨"alert", 50⟩, ⟨"dns", 10⟩]
      [("dns", some [⟨100, 1⟩, ⟨200, 2⟩]), ("alert", some [⟨100, 5⟩, ⟨200, 7⟩])]
      initPanel "dns" [⟨100, 1⟩, ⟨200, 2⟩] (by decide) (by decide)⟩

/-- C3 counterexample: in the same cycle as the C2 counterexample the
final model has labels of length 1 but retains the series of the empty
first response with 0 values — a series violating the length invariant is
present in the final model. -/
theorem series_length_invariant_cex :
    (runCycle id "tr" "tr" (some [⟨"a", 1⟩, ⟨"b", 1⟩])
        [("a", some []), ("b", some [⟨100, 5⟩])] initPanel).labels.length = 1 ∧
    (runCycle id "tr" "tr" (some [⟨"a", 1⟩, ⟨"b", 1⟩])
        [("a", some []), ("b", some [⟨100, 5⟩])] initPanel).datasets.map
        (fun ds => ds.data.length) = [0, 1] := by
  decide

/-- C3 (amended): for every refresh cycle whose first fulfilled histogram
response is nonempty, every series present in the final chart model has
as many values as there are labels; and a fulfilled response whose point
count differs from the established (nonempty) label count contributes no
series. -/
theorem series_length_invariant_amended (getIv : String → String)
    (tr0 tr1 : String) (rows : List Row)
    (arrivals : List (String × Option (List HistPoint))) (st : Panel)
    (k : String) (d : List HistPoint)
    (hfs : firstSuccess arrivals = some (k, d)) (hd : d ≠ []) :
    (∀ ds ∈ (runCycle getIv tr0 tr1 (some rows) arrivals st).datasets,
        ds.data.length =
          (runCycle getIv tr0 tr1 (some rows) arrivals st).labels.length) ∧
    (∀ (st' : Panel) (k' : String) (d' : List HistPoint),
        st'.labels ≠ [] → d'.length ≠ st'.labels.length →
        (histogramSettle st' (k', some d')).datasets = st'.datasets) := by
  constructor
  · show ∀ ds ∈ (runArrivals arrivals
        (discoveryFinally
          (discoveryThen tr1 (getIv tr0) rows (refreshStart tr0 st)))).datasets, _
    apply runArrivals_len_of_firstSuccess arrivals k d _ ?_ ?_ hfs hd
    · rw [discoveryThen_eq]
      rfl
    · rw [discoveryThen_eq]
      rfl
  · intro st' k' d' hl hmm
    exact (histogramSettle_skip_of_mismatch st' k' d' hl hmm).1

/-- C3 witness: a two-response cycle where the second response has a
mismatched length (3 points against 2 labels) and is dropped. -/
theorem series_length_invariant_amended_witness :
    firstSuccess [("dns", some [⟨100, 1⟩, ⟨200, 2⟩]),
        ("alert", some [⟨100, 5⟩, ⟨200, 7⟩, ⟨300, 9⟩])] =
      some ("dns", [⟨100, 1⟩, ⟨200, 2⟩]) ∧
    ([⟨100, 1⟩, ⟨200, 2⟩] : List HistPoint) ≠ [] ∧
    ((∀ ds ∈ (runCycle id "24h" "24h" (some [⟨"alert", 50⟩, ⟨"dns", 10⟩])
        [("dns", some [⟨100, 1⟩, ⟨200, 2⟩]),
          ("alert", some [⟨100, 5⟩, ⟨200, 7⟩, ⟨300, 9⟩])] initPanel).datasets,
        ds.data.length =
          (runCycle id "24h" "24h" (some [⟨"alert", 50⟩, ⟨"dns", 10⟩])
            [("dns", some [⟨100, 1⟩, ⟨200, 2⟩]),
              ("alert", some [⟨100, 5⟩, ⟨200, 7⟩, ⟨300, 9⟩])]
            initPanel).labels.length) ∧
      (∀ (st' : Panel) (k' : String) (d' : List HistPoint),
          st'.labels ≠ [] → d'.length ≠ st'.labels.length →
          (histogramSettle st' (k', some d')).datasets = st'.datasets)) :=
  ⟨by decide, by decide,
    series_length_invariant_amended id "24h" "24h" [⟨"alert", 50⟩, ⟨"dns", 10⟩]
      [("dns", some [⟨100, 1⟩, ⟨200, 2⟩]),
        ("alert", some [⟨100, 5⟩, ⟨200, 7⟩, ⟨300, 9⟩])]
      initPanel "dns" [⟨100, 1⟩, ⟨200, 2⟩] (by decide) (by decide)⟩

/-- C4: if the discovery call settles and one settlement arrives for each
of the histogram calls issued (success or failure alike), the `loading`
counter is back to exactly 0 at the end of the cycle. -/
theorem loading_returns_to_zero (getIv : String → String) (tr0 tr1 : String)
    (disc : Option (List Row))
    (arrivals : List (String × Option (List HistPoint))) (st : Panel)
    (h0 : st.loading = 0) (hn : arrivals.length = numIssued disc) :
    (runCycle getIv tr0 tr1 disc arrivals st).loading = 0 := by
  cases disc with
  | none =>
      show (runArrivals arrivals (discoveryFinally (refreshStart tr0 st))).loading = 0
      rw [runArrivals_loading]
      simp only [numIssued] at hn
      simp [discoveryFinally, refreshStart, h0, hn]
  | some rows =>
      show (runArrivals arrivals
        (discoveryFinally
          (discoveryThen tr1 (getIv tr0) rows (refreshStart tr0 st)))).loading = 0
      rw [runArrivals_loading, discoveryThen_eq]
      simp only [numIssued] at hn
      show (refreshStart tr0 st).loading + rows.length - 1 - arrivals.length = 0
      show st.loading + 1 + rows.length - 1 - arrivals.length = 0
      rw [h0, hn]
      push_cast
      ring

/-- C4 witness: one discovered category, one settled histogram call. -/
theorem loading_returns_to_zero_witness :
    initPanel.loading = 0 ∧
    ([("alert", some [⟨100, 2⟩])] :
        List (String × Option (List HistPoint))).length =
      numIssued (some [⟨"alert", 1⟩]) ∧
    (runCycle id "24h" "24h" (some [⟨"alert", 1⟩])
        [("alert", some [⟨100, 2⟩])] initPanel).loading = 0 :=
  ⟨rfl, by decide,
    loading_returns_to_zero id "24h" "24h" (some [⟨"alert", 1⟩])
      [("alert", some [⟨100, 2⟩])] initPanel rfl (by decide)⟩

/-- C5: after a legend click on series `i`, the registry entry for that
series's label holds the toggled value; no refresh cycle ever writes the
registry; and a later cycle that rediscovers the category creates its
series with the toggled visibility. -/
theorem visibility_persists_across_refresh (st : Panel) (i : Nat)
    (ds : Dataset) (h : st.datasets.get? i = some ds) :
    lookupHidden (legendClick st i).hiddenTypes ds.label = !ds.hidden ∧
    (∀ (getIv : String → String) (tr0 tr1 : String) (disc : Option (List Row))
        (arrivals : List (String × Option (List HistPoint))),
        (runCycle getIv tr0 tr1 disc arrivals (legendClick st i)).hiddenTypes =
          (legendClick st i).hiddenTypes) ∧
    (∀ (getIv : String → String) (tr0 tr1 : String) (rows : List Row)
        (d : List HistPoint),
        (runCycle getIv tr0 tr1 (some rows) [(ds.label, some d)]
            (legendClick st i)).datasets =
          [⟨d.map (·.count), ds.label, 0, !ds.hidden⟩]) := by
  have hreg : lookupHidden (legendClick st i).hiddenTypes ds.label = !ds.hidden := by
    rw [legendClick_eq st i ds h]
    exact lookupHidden_setAssoc_self st.hiddenTypes ds.label (!ds.hidden)
  refine ⟨hreg, ?_, ?_⟩
  · intro getIv tr0 tr1 disc arrivals
    exact runCycle_hiddenTypes getIv tr0 tr1 disc arrivals (legendClick st i)
  · intro getIv tr0 tr1 rows d
    rw [runCycle_single_arrival_datasets, hreg]

/-- C5 witness: toggling the visible "alert" series hides it; the next
cycle that rediscovers "alert" creates it hidden. -/
theorem visibility_persists_across_refresh_witness :
    ({ initPanel with datasets := [⟨[1, 2], "alert", 0, false⟩] } :
        Panel).datasets.get? 0 = some ⟨[1, 2], "alert", 0, false⟩ ∧
    (lookupHidden
        (legendClick { initPanel with datasets := [⟨[1, 2], "alert", 0, false⟩] }
          0).hiddenTypes "alert" = true ∧
      (∀ (getIv : String → String) (tr0 tr1 : String) (disc : Option (List Row))
          (arrivals : List (String × Option (List HistPoint))),
          (runCycle getIv tr0 tr1 disc arrivals
              (legendClick
                { initPanel with datasets := [⟨[1, 2], "alert", 0, false⟩] }
                0)).hiddenTypes =
            (legendClick { initPanel with datasets := [⟨[1, 2], "alert", 0, false⟩] }
              0).hiddenTypes) ∧
      (∀ (getIv : String → String) (tr0 tr1 : String) (rows : List Row)
          (d : List HistPoint),
          (runCycle getIv tr0 tr1 (some rows) [("alert", some d)]
              (legendClick
                { initPanel with datasets := [⟨[1, 2], "alert", 0, false⟩] }
                0)).datasets =
            [⟨d.map (·.count), "alert", 0, true⟩])) :=
  ⟨rfl,
    visibility_persists_across_refresh
      { initPanel with datasets := [⟨[1, 2], "alert", 0, false⟩] } 0
      ⟨[1, 2], "alert", 0, false⟩ rfl⟩

/-- C6 counterexample: the ambient time range changes from "last-24h" to
"last-1h" between the start of the cycle and the arrival of the discovery
response.  The discovery call was issued with "last-24h" but the
histogram call for the discovered key is issued with "last-1h": the code
re-reads `TIME_RANGE()` instead of reusing the captured `timeRange`. -/
theorem histogram_time_range_cex :
    (runCycle (fun _ => "1h") "last-24h" "last-1h" (some [⟨"alert", 50⟩]) []
        initPanel).issuedGroupBy = [⟨"event_type", 100, "last-24h"⟩] ∧
    (runCycle (fun _ => "1h") "last-24h" "last-1h" (some [⟨"alert", 50⟩]) []
        initPanel).issuedHistogram = [⟨"last-1h", "1h", "alert", ""⟩] ∧
    ("last-1h" : String) ≠ "last-24h" := by
  decide

/-- C6 (amended): for every category key returned by discovery, exactly
one histogram call is issued, in discovery response order, with the same
interval that was computed at the start of the cycle; its time range is
the ambient `TIME_RANGE()` value read when the discovery response
arrives, which need not equal the range used by the discovery call. -/
theorem histogram_calls_per_discovery_key (getIv : String → String)
    (tr0 tr1 : String) (rows : List Row)
    (arrivals : List (String × Option (List HistPoint))) (st : Panel) :
    (runCycle getIv tr0 tr1 (some rows) arrivals st).issuedHistogram =
      st.issuedHistogram ++ rows.map (fun e => ⟨tr1, getIv tr0, e.key, ""⟩) ∧
    (runCycle getIv tr0 tr1 (some rows) arrivals st).issuedGroupBy =
      st.issuedGroupBy ++ [⟨"event_type", 100, tr0⟩] := by
  constructor
  · show (runArrivals arrivals
        (discoveryFinally
          (discoveryThen tr1 (getIv tr0) rows (refreshStart tr0 st)))).issuedHistogram = _
    rw [runArrivals_issuedHistogram, discoveryThen_eq]
    rfl
  · show (runArrivals arrivals
        (discoveryFinally
          (discoveryThen tr1 (getIv tr0) rows (refreshStart tr0 st)))).issuedGroupBy = _
    rw [runArrivals_issuedGroupBy, discoveryThen_eq]
    rfl

/-- C7: a merged histogram response appends exactly one series with label
the category key, values the point counts in order, and visibility looked
up in the registry; the initial registry hides exactly anomaly, stats and
netflow, and an unknown key defaults to visible. -/
theorem merged_series_shape_and_defaults (k : String) (data : List HistPoint)
    (st : Panel) (h : st.labels = [] ∨ data.length = st.labels.length) :
    (histogramSettle st (k, some data)).datasets =
      st.datasets ++ [⟨data.map (·.count), k, 0, lookupHidden st.hiddenTypes k⟩] ∧
    lookupHidden hiddenTypes0 "anomaly" = true ∧
    lookupHidden hiddenTypes0 "stats" = true ∧
    lookupHidden hiddenTypes0 "netflow" = true ∧
    (∀ k', k' ≠ "anomaly" → k' ≠ "stats" → k' ≠ "netflow" →
        lookupHidden hiddenTypes0 k' = false) := by
  refine ⟨?_, by decide, by decide, by decide, ?_⟩
  · by_cases h0 : st.labels = []
    · exact (histogramSettle_some_of_labels_nil st k data h0).2
    · have hlen : data.length = st.labels.length := by
        rcases h with h | h
        · exact absurd h h0
        · exact h
      have hlen0 : ¬st.labels.length = 0 := by
        simpa [List.length_eq_zero] using h0
      simp [histogramSettle, histogramThen, hlen0, hlen]
  · intro k' h1 h2 h3
    have b1 : (k' == "anomaly") = false := beq_eq_false_iff_ne.mpr h1
    have b2 : (k' == "stats") = false := beq_eq_false_iff_ne.mpr h2
    have b3 : (k' == "netflow") = false := beq_eq_false_iff_ne.mpr h3
    simp [lookupHidden, hiddenTypes0, List.lookup, b1, b2, b3]

/-- C7 witness: merging a "dns" response into an empty chart. -/
theorem merged_series_shape_and_defaults_witness :
    (initPanel.labels = [] ∨
        ([⟨1, 2⟩] : List HistPoint).length = initPanel.labels.length) ∧
    ((histogramSettle initPanel ("dns", some [⟨1, 2⟩])).datasets =
        initPanel.datasets ++
          [⟨([⟨1, 2⟩] : List HistPoint).map (·.count), "dns", 0,
            lookupHidden initPanel.hiddenTypes "dns"⟩] ∧
      lookupHidden hiddenTypes0 "anomaly" = true ∧
      lookupHidden hiddenTypes0 "stats" = true ∧
      lookupHidden hiddenTypes0 "netflow" = true ∧
      (∀ k', k' ≠ "anomaly" → k' ≠ "stats" → k' ≠ "netflow" →
          lookupHidden hiddenTypes0 k' = false)) :=
  ⟨Or.inl rfl,
    merged_series_shape_and_defaults "dns" [⟨1, 2⟩] initPanel (Or.inl rfl)⟩

/-- C8 counterexample: on a discovery failure nothing is written to the
console log — the code has no rejection handler, so the failure is not
reported to any diagnostic channel, refuting that part of the claim.  The
remaining parts hold: no histogram call is issued and the counter returns
to its prior value. -/
theorem discovery_failure_not_reported_cex :
    (runCycle id "tr" "tr" none [] initPanel).log = [] ∧
    (runCycle id "tr" "tr" none [] initPanel).issuedHistogram = [] ∧
    (runCycle id "tr" "tr" none [] initPanel).loading = 0 := by
  decide

/-- C8 (amended): on a discovery failure no histogram call is issued, the
pending counter is decremented for the settled discovery call (net 0 for
the cycle), and the code performs no diagnostic report of its own — the
rejection propagates unhandled and the log is unchanged. -/
theorem discovery_failure_behavior (getIv : String → String)
    (tr0 tr1 : String) (st : Panel) :
    (runCycle getIv tr0 tr1 none [] st).issuedHistogram = st.issuedHistogram ∧
    (runCycle getIv tr0 tr1 none [] st).log = st.log ∧
    (runCycle getIv tr0 tr1 none [] st).loading = st.loading ∧
    (runCycle getIv tr0 tr1 none [] st).issuedGroupBy =
      st.issuedGroupBy ++ [⟨"event_type", 100, tr0⟩] := by
  refine ⟨rfl, rfl, ?_, rfl⟩
  show (refreshStart tr0 st).loading - 1 = st.loading
  show st.loading + 1 - 1 = st.loading
  ring

/-- C9: a legend click toggles exactly the clicked series's visibility on
the chart and updates exactly that series's registry entry; every other
series and registry key, the `loading` counter, and the issued-call lists
are untouched. -/
theorem legend_click_local_toggle (st : Panel) (i : Nat) (ds : Dataset)
    (h : st.datasets.get? i = some ds) :
    (legendClick st i).datasets.get? i = some { ds with hidden := !ds.hidden } ∧
    (∀ j, j ≠ i → (legendClick st i).datasets.get? j = st.datasets.get? j) ∧
    lookupHidden (legendClick st i).hiddenTypes ds.label = !ds.hidden ∧
    (∀ k', k' ≠ ds.label →
        lookupHidden (legendClick st i).hiddenTypes k' =
          lookupHidden st.hiddenTypes k') ∧
    (legendClick st i).loading = st.loading ∧
    (legendClick st i).issuedGroupBy = st.issuedGroupBy ∧
    (legendClick st i).issuedHistogram = st.issuedHistogram := by
  rw [legendClick_eq st i ds h]
  refine ⟨?_, ?_, ?_, ?_, rfl, rfl, rfl⟩
  · show (st.datasets.set i { ds with hidden := !ds.hidden }).get? i = _
    rw [List.get?_set_eq, h]
    rfl
  · intro j hj
    exact List.get?_set_ne _ _ fun hh => hj hh.symm
  · exact lookupHidden_setAssoc_self st.hiddenTypes ds.label (!ds.hidden)
  · intro k' hk'
    exact lookupHidden_setAssoc_ne st.hiddenTypes ds.label k' (!ds.hidden) hk'

/-- C9 witness: clicking the first of two visible series hides exactly
it. -/
theorem legend_click_local_toggle_witness :
    ({ initPanel with
        datasets := [⟨[1], "alert", 0, false⟩, ⟨[2], "dns", 0, false⟩] } :
        Panel).datasets.get? 0 = some ⟨[1], "alert", 0, false⟩ ∧
    ((legendClick
          { initPanel with
            datasets := [⟨[1], "alert", 0, false⟩, ⟨[2], "dns", 0, false⟩] }
          0).datasets.get? 0 = some ⟨[1], "alert", 0, true⟩ ∧
      (∀ j, j ≠ 0 →
          (legendClick
              { initPanel with
                datasets := [⟨[1], "alert", 0, false⟩, ⟨[2], "dns", 0, false⟩] }
              0).datasets.get? j =
            ({ initPanel with
                datasets := [⟨[1], "alert", 0, false⟩, ⟨[2], "dns", 0, false⟩] } :
              Panel).datasets.get? j) ∧
      lookupHidden
          (legendClick
            { initPanel with
              datasets := [⟨[1], "alert", 0, false⟩, ⟨[2], "dns", 0, false⟩] }
            0).hiddenTypes "alert" = true ∧
      (∀ k', k' ≠ "alert" →
          lookupHidden
              (legendClick
                { initPanel with
                  datasets := [⟨[1], "alert", 0, false⟩, ⟨[2], "dns", 0, false⟩] }
                0).hiddenTypes k' =
            lookupHidden
              ({ initPanel with
                  datasets := [⟨[1], "alert", 0, false⟩, ⟨[2], "dns", 0, false⟩] } :
                Panel).hiddenTypes k') ∧
      (legendClick
          { initPanel with
            datasets := [⟨[1], "alert", 0, false⟩, ⟨[2], "dns", 0, false⟩] }
          0).loading = 0 ∧
      (legendClick
          { initPanel with
            datasets := [⟨[1], "alert", 0, false⟩, ⟨[2], "dns", 0, false⟩] }
          0).issuedGroupBy = [] ∧
      (legendClick
          { initPanel with
            datasets := [⟨[1], "alert", 0, false⟩, ⟨[2], "dns", 0, false⟩] }
          0).issuedHistogram = []) :=
  ⟨rfl,
    legend_click_local_toggle
      { initPanel with
        datasets := [⟨[1], "alert", 0, false⟩, ⟨[2], "dns", 0, false⟩] }
      0 ⟨[1], "alert", 0, false⟩ rfl⟩

/-- Auxiliary invariant for C10: along every valid event trace the
counter equals the number of outstanding calls. -/
theorem runEvents_loading_invariant (evs : List Event) (st0 st : SysState)
    (h0 : st0.loading = st0.pendingGroupBy + st0.pendingHistogram)
    (h : runEvents st0 evs = some st) :
    st.loading = st.pendingGroupBy + st.pendingHistogram := by
  induction evs generalizing st0 with
  | nil =>
      simp only [runEvents, Option.some.injEq] at h
      rw [← h]
      exact h0
  | cons ev rest ih =>
      cases ev with
      | refresh =>
          have h' : runEvents
              ⟨st0.loading + 1, st0.pendingGroupBy + 1, st0.pendingHistogram⟩
              rest = some st := h
          exact ih _ (by push_cast; omega) h'
      | groupBySettle out =>
          by_cases hpg : st0.pendingGroupBy = 0
          · have hnone : runEvents st0 (Event.groupBySettle out :: rest) = none := by
              simp [runEvents, step, hpg]
            rw [hnone] at h
            exact absurd h (by simp)
          · cases out with
            | some n =>
                have h' : runEvents
                    ⟨st0.loading + n - 1, st0.pendingGroupBy - 1,
                      st0.pendingHistogram + n⟩ rest = some st := by
                  simpa [runEvents, step, hpg] using h
                exact ih _ (by push_cast; omega) h'
            | none =>
                have h' : runEvents
                    ⟨st0.loading - 1, st0.pendingGroupBy - 1,
                      st0.pendingHistogram⟩ rest = some st := by
                  simpa [runEvents, step, hpg] using h
                exact ih _ (by push_cast; omega) h'
      | histogramDone =>
          by_cases hph : st0.pendingHistogram = 0
          · have hnone : runEvents st0 (Event.histogramDone :: rest) = none := by
              simp [runEvents, step, hph]
            rw [hnone] at h
            exact absurd h (by simp)
          · have h' : runEvents
                ⟨st0.loading - 1, st0.pendingGroupBy,
                  st0.pendingHistogram - 1⟩ rest = some st := by
              simpa [runEvents, step, hph] using h
            exact ih _ (by push_cast; omega) h'

/-- C10: along every valid interleaving of refresh calls, discovery
settlements and histogram settlements (each settlement paired with a call
actually outstanding), the `loading` counter equals the number of
outstanding calls and in particular is never negative. -/
theorem loading_never_negative (evs : List Event) (st : SysState)
    (h : runEvents initSys evs = some st) :
    st.loading = st.pendingGroupBy + st.pendingHistogram ∧ 0 ≤ st.loading := by
  have hinv := runEvents_loading_invariant evs initSys st (by simp [initSys]) h
  refine ⟨hinv, ?_⟩
  rw [hinv]
  positivity

/-- C10 witness: a trace with a refresh, a successful discovery of one
category and the histogram call still outstanding. -/
theorem loading_never_negative_witness :
    (⟨1, 0, 1⟩ : SysState).loading =
        (⟨1, 0, 1⟩ : SysState).pendingGroupBy +
          (⟨1, 0, 1⟩ : SysState).pendingHistogram ∧
      0 ≤ (⟨1, 0, 1⟩ : SysState).loading :=
  loading_never_negative [.refresh, .groupBySettle (some 1)] ⟨1, 0, 1⟩
    (by decide)

end Overview
